import Mathlib

/-!
Verification of the WebP batch image converter (src/index.js).

The effectful Node.js program is shallowly embedded.  The sharp encoder is
abstracted as a function from an encoding quality to the outcome of one
encode (the size of the file written to outputPath, or the message of a
thrown exception).  File-system effects that the control flow observes are
tracked explicitly: whether the output file exists, and how many deletion
calls are made on the temporary upload.  Fallible operations are embedded
as Except values whose error component carries the thrown message.
-/

namespace WebpConverter

/-- Outcome of one sharp encode at a given quality: the size of the file
written to outputPath, or the message of the exception the encoder threw.
One fixed source file corresponds to one such function. -/
abbrev EncodeFn := Int → Except String Nat

/-- Result of one execution of the body of the do-while loop in
optimizeWebP, src/index.js lines 114 to 140. -/
inductive StepOut where
  /-- Lines 130 to 134: size not below original, quality above 10, attempts
  left.  The output file is unlinked, quality drops by 20 (carried as
  nextQuality) and the attempts counter is incremented by the caller. -/
  | retry (convertedSize : Nat) (nextQuality : Int)
  /-- An exception: either the encoder itself threw (no output written,
  outputExists false) or line 136 threw the too-small error after a
  successful write (outputExists true: the file is not unlinked first). -/
  | thrown (outputExists : Bool) (msg : String)
  /-- Line 138: leave the loop with the measured size; the output file is
  on disk. -/
  | exitLoop (convertedSize : Nat)
deriving DecidableEq, Repr

/-- maxAttempts, line 112. -/
def maxAttempts : Nat := 3

/-- Initial quality, line 109: 50 when the source is already WebP, else 70. -/
def initialQuality (isWebP : Bool) : Int :=
  if isWebP then 50 else 70

/-- One execution of the do-while body, lines 114 to 140: encode at the
current quality and measure the written size; then either retry (unlink,
quality -= 20, attempts++), throw the too-small error, or break out of the
loop with the measured size. -/
def loopBody (enc : EncodeFn) (originalSize : Nat) (quality : Int) (attempts : Nat) : StepOut :=
  match enc quality with
  | .error msg => .thrown false msg
  | .ok convertedSize =>
    if convertedSize ≥ originalSize ∧ quality > 10 ∧ attempts < maxAttempts then
      .retry convertedSize (quality - 20)
    else if convertedSize < 512 then
      .thrown true "Converted file size too small"
    else
      .exitLoop convertedSize

/-- Result of optimizeWebP: the qualities at which encodes were performed
(in order), the returned size or the thrown message, and whether the
output file exists on disk afterwards. -/
structure OptOut where
  encodes : List Int
  result : Except String Nat
  outputExists : Bool
deriving Repr

/-- The code after the loop, lines 142 to 159: if the last measured size is
still not below the original, one forced encode at quality 20 whose size is
measured and returned without any further check.  If that encode throws,
the output-file state is modelled as unchanged. -/
def afterLoop (enc : EncodeFn) (originalSize : Nat) (encodes : List Int)
    (convertedSize : Nat) (outputExists : Bool) : OptOut :=
  if convertedSize ≥ originalSize then
    match enc 20 with
    | .error msg => ⟨encodes ++ [20], .error msg, outputExists⟩
    | .ok s => ⟨encodes ++ [20], .ok s, true⟩
  else
    ⟨encodes, .ok convertedSize, outputExists⟩

/-- optimizeWebP, lines 108 to 160.  The do-while loop is unrolled: with
maxAttempts = 3 its body runs at most three times (attempts = 0, 1, 2).  A
retry in the third iteration sets attempts to 3, the while condition fails,
and the loop is left with the stale size of the third encode and the output
file already unlinked; the fallback then necessarily runs. -/
def optimizeWebP (enc : EncodeFn) (originalSize : Nat) (isWebP : Bool) : OptOut :=
  match loopBody enc originalSize (initialQuality isWebP) 0 with
  | .thrown ex msg => ⟨[initialQuality isWebP], .error msg, ex⟩
  | .exitLoop s => afterLoop enc originalSize [initialQuality isWebP] s true
  | .retry _ q1 =>
    match loopBody enc originalSize q1 1 with
    | .thrown ex msg => ⟨[initialQuality isWebP, q1], .error msg, ex⟩
    | .exitLoop s => afterLoop enc originalSize [initialQuality isWebP, q1] s true
    | .retry _ q2 =>
      match loopBody enc originalSize q2 2 with
      | .thrown ex msg => ⟨[initialQuality isWebP, q1, q2], .error msg, ex⟩
      | .exitLoop s => afterLoop enc originalSize [initialQuality isWebP, q1, q2] s true
      | .retry s _ => afterLoop enc originalSize [initialQuality isWebP, q1, q2] s false

/-- A file handed over by the upload layer: its original name, the base
name (path.basename of originalname with the extension stripped, line 179)
and the size multer declared for it (file.size, used at lines 204 and 205). -/
structure SourceFile where
  originalName : String
  baseName : String
  declaredSize : Nat
deriving DecidableEq, Repr

/-- Environment of one iteration of the for-loop at lines 178 to 211:
statSize is the size measured from the temporary upload at line 184;
isWebP mirrors line 185; enc abstracts sharp on this input file; and
unlinkTempError is some message exactly when the unlink of the temporary
upload at line 199 rejects (that call has no catch of its own, unlike the
one at line 210). -/
structure FileEnv where
  statSize : Nat
  isWebP : Bool
  enc : EncodeFn
  unlinkTempError : Option String

/-- One element of the fileSizes response array.  In the JSON, skipped and
error fields are absent unless set; an absent field is modelled as false,
and an absent errorDetail as none. -/
structure FileSizeEntry where
  originalName : String
  originalSize : Nat
  convertedSize : Nat
  skipped : Bool
  error : Bool
  errorDetail : Option String
deriving DecidableEq, Repr

/-- Observable result of processing one file: the entries pushed onto
fileSizes, the strings pushed onto downloadUrls, whether an output file is
left in the session directory, and how many unlink calls were made on the
temporary upload path. -/
structure FileResult where
  entries : List FileSizeEntry
  urls : List String
  outputExists : Bool
  tempUnlinkCalls : Nat
deriving DecidableEq, Repr

/-- The entry pushed by the catch block at lines 202 to 208: both sizes are
the declared upload size file.size (not sizes measured from disk), error is
true and errorDetail carries the message of the caught exception. -/
def failedEntry (f : SourceFile) (msg : String) : FileSizeEntry :=
  ⟨f.originalName, f.declaredSize, f.declaredSize, false, true, some msg⟩

/-- One iteration of the for-loop of the convert endpoint, lines 178 to
211.  On a throw from optimizeWebP the catch block pushes a failed entry
and attempts the temp unlink with its rejection swallowed (line 210).  On a
returned size, line 189 compares it with the measured original size: the
skip branch unlinks the output and pushes a skipped entry; the convert
branch keeps the output and pushes the download URL.  The unlink of the
temporary upload at line 199 is inside the try block: when it rejects, the
catch block runs after the success entry was already pushed, so a second
(failed) entry and a second empty URL are pushed for the same file and a
second unlink call is made. -/
def processFile (sessionId : String) (f : SourceFile) (env : FileEnv) : FileResult :=
  match (optimizeWebP env.enc env.statSize env.isWebP).result with
  | .error msg =>
    ⟨[failedEntry f msg], [""],
      (optimizeWebP env.enc env.statSize env.isWebP).outputExists, 1⟩
  | .ok convertedSize =>
    if convertedSize ≥ env.statSize then
      match env.unlinkTempError with
      | none =>
        ⟨[⟨f.originalName, env.statSize, env.statSize, true, false, none⟩], [""], false, 1⟩
      | some m =>
        ⟨[⟨f.originalName, env.statSize, env.statSize, true, false, none⟩, failedEntry f m],
          ["", ""], false, 2⟩
    else
      match env.unlinkTempError with
      | none =>
        ⟨[⟨f.originalName, env.statSize, convertedSize, false, false, none⟩],
          ["/download/" ++ sessionId ++ "/" ++ (f.baseName ++ ".webp")], true, 1⟩
      | some m =>
        ⟨[⟨f.originalName, env.statSize, convertedSize, false, false, none⟩, failedEntry f m],
          ["/download/" ++ sessionId ++ "/" ++ (f.baseName ++ ".webp"), ""], true, 2⟩

/-- The sequential for-loop over req.files, lines 178 to 212: each file is
fully processed before the next begins; the per-file pushes are
concatenated in input order. -/
def processBatch (sessionId : String) :
    List (SourceFile × FileEnv) → List FileSizeEntry × List String
  | [] => ([], [])
  | fe :: rest =>
    let r := processFile sessionId fe.1 fe.2
    let rr := processBatch sessionId rest
    (r.entries ++ rr.1, r.urls ++ rr.2)

/-- Line 214: the zip URL is offered when fileSizes is non-empty and not
every entry is an error or a skip. -/
def zipDownloadUrl (sessionId : String) (fileSizes : List FileSizeEntry) : String :=
  if fileSizes.length ≠ 0 ∧ ¬ fileSizes.all (fun f => f.error || f.skipped) = true then
    "/download-zip/" ++ sessionId
  else ""

/-- Response sent by the download-zip route. -/
inductive ZipResponse where
  /-- res.status(404).json, line 71. -/
  | notFound (msg : String)
  /-- res.download delivered the archive, line 94. -/
  | delivered
  /-- res.status(500).json, lines 97 and 103. -/
  | serverError (msg : String)
deriving DecidableEq, Repr

/-- Environment of one download-zip request: readdir is an error exactly
when the session directory is absent (line 68 rejects); archiveResult is an
error exactly when the archiver emits an error event (line 82);
deliveryError is some message exactly when res.download reports an error to
its callback (line 95). -/
structure ZipEnv where
  readdir : Except String (List String)
  archiveResult : Except String Unit
  deliveryError : Option String

/-- Observable result of a download-zip request: the response, whether the
transient zip file was created (fs.createWriteStream at line 74 runs), and
whether it was deleted (the unlink at line 99 runs). -/
structure ZipResult where
  response : ZipResponse
  zipFileCreated : Bool
  zipFileDeleted : Bool
deriving DecidableEq, Repr

/-- The download-zip route handler, lines 62 to 105.  A readdir rejection
is caught by the outer catch and answered with a 500, not a 404; an
archiver error rejects zipPromise after the write stream has created the
transient zip file, and the catch block does not unlink it; the unlink at
line 99 runs in the download callback on both successful and failed
delivery. -/
def downloadZip (env : ZipEnv) : ZipResult :=
  match env.readdir with
  | .error msg => ⟨.serverError ("Failed to create ZIP: " ++ msg), false, false⟩
  | .ok files =>
    if files.length = 0 then
      ⟨.notFound "No files available to zip", false, false⟩
    else
      match env.archiveResult with
      | .error msg => ⟨.serverError ("Failed to create ZIP: " ++ msg), true, false⟩
      | .ok _ =>
        match env.deliveryError with
        | none => ⟨.delivered, true, true⟩
        | some _ => ⟨.serverError "Failed to download ZIP", true, true⟩

/-! ### Helper lemmas about the transcoder -/

/-- Inversion of a retry step: it happens exactly under the condition of
line 130, and the next quality is the current one minus 20. -/
theorem loopBody_retry_inv {enc : EncodeFn} {orig : Nat} {q : Int} {a s : Nat} {nq : Int}
    (h : loopBody enc orig q a = .retry s nq) :
    nq = q - 20 ∧ enc q = .ok s ∧ s ≥ orig ∧ 10 < q ∧ a < maxAttempts := by
  unfold loopBody at h
  cases henc : enc q with
  | error msg => rw [henc] at h; simp at h
  | ok cs =>
    rw [henc] at h
    dsimp only at h
    by_cases hc : cs ≥ orig ∧ q > 10 ∧ a < maxAttempts
    · rw [if_pos hc] at h
      injection h with h1 h2
      subst h1; subst h2
      exact ⟨rfl, rfl, hc.1, hc.2.1, hc.2.2⟩
    · rw [if_neg hc] at h
      by_cases h512 : cs < 512
      · rw [if_pos h512] at h; simp at h
      · rw [if_neg h512] at h; simp at h

/-- Inversion of a loop exit via break, line 138. -/
theorem loopBody_exitLoop_inv {enc : EncodeFn} {orig : Nat} {q : Int} {a s : Nat}
    (h : loopBody enc orig q a = .exitLoop s) :
    enc q = .ok s ∧ ¬(s ≥ orig ∧ 10 < q ∧ a < maxAttempts) ∧ ¬ s < 512 := by
  unfold loopBody at h
  cases henc : enc q with
  | error msg => rw [henc] at h; simp at h
  | ok cs =>
    rw [henc] at h
    dsimp only at h
    by_cases hc : cs ≥ orig ∧ q > 10 ∧ a < maxAttempts
    · rw [if_pos hc] at h; simp at h
    · rw [if_neg hc] at h
      by_cases h512 : cs < 512
      · rw [if_pos h512] at h; simp at h
      · rw [if_neg h512] at h
        injection h with h1
        subst h1
        exact ⟨rfl, hc, h512⟩

/-- A retry step from its preconditions (line 130). -/
theorem loopBody_eq_retry (enc : EncodeFn) (orig : Nat) (q : Int) (a s : Nat)
    (henc : enc q = .ok s) (h1 : s ≥ orig) (h2 : 10 < q) (h3 : a < maxAttempts) :
    loopBody enc orig q a = .retry s (q - 20) := by
  unfold loopBody
  rw [henc]
  dsimp only
  rw [if_pos ⟨h1, h2, h3⟩]

/-- The first encode of the quality search always happens at the initial
quality, and each encode of the loop is 20 below the previous one; the
fallback encode, when it happens, is the fourth and runs at quality 20.
Hence the trace of encode qualities has one of four shapes. -/
theorem optimizeWebP_encodes_shape (enc : EncodeFn) (orig : Nat) (isWebP : Bool) :
    (optimizeWebP enc orig isWebP).encodes = [initialQuality isWebP] ∨
    (optimizeWebP enc orig isWebP).encodes
      = [initialQuality isWebP, initialQuality isWebP - 20] ∨
    (optimizeWebP enc orig isWebP).encodes
      = [initialQuality isWebP, initialQuality isWebP - 20, initialQuality isWebP - 40] ∨
    (optimizeWebP enc orig isWebP).encodes
      = [initialQuality isWebP, initialQuality isWebP - 20, initialQuality isWebP - 40, 20] := by
  have hq0 : (10 : Int) < initialQuality isWebP := by cases isWebP <;> decide
  have hq1 : (10 : Int) < initialQuality isWebP - 20 := by cases isWebP <;> decide
  have e40 : initialQuality isWebP - 20 - 20 = initialQuality isWebP - 40 := by ring
  unfold optimizeWebP
  cases h0 : loopBody enc orig (initialQuality isWebP) 0 with
  | thrown ex msg => dsimp only; simp
  | exitLoop s =>
    dsimp only
    obtain ⟨henc, hnc, h512⟩ := loopBody_exitLoop_inv h0
    have hlt : ¬ s ≥ orig := fun hge => hnc ⟨hge, hq0, by decide⟩
    unfold afterLoop
    rw [if_neg hlt]
    simp
  | retry s0 q1 =>
    dsimp only
    obtain ⟨hq1eq, _, _, _, _⟩ := loopBody_retry_inv h0
    subst hq1eq
    cases h1 : loopBody enc orig (initialQuality isWebP - 20) 1 with
    | thrown ex msg => dsimp only; simp
    | exitLoop s =>
      dsimp only
      obtain ⟨henc, hnc, h512⟩ := loopBody_exitLoop_inv h1
      have hlt : ¬ s ≥ orig := fun hge => hnc ⟨hge, hq1, by decide⟩
      unfold afterLoop
      rw [if_neg hlt]
      simp
    | retry s1 q2 =>
      dsimp only
      obtain ⟨hq2eq, _, _, _, _⟩ := loopBody_retry_inv h1
      subst hq2eq
      rw [e40]
      cases h2 : loopBody enc orig (initialQuality isWebP - 40) 2 with
      | thrown ex msg => dsimp only; simp
      | exitLoop s =>
        dsimp only
        by_cases hge : s ≥ orig
        · unfold afterLoop
          rw [if_pos hge]
          cases h20 : enc 20 <;> simp
        · unfold afterLoop
          rw [if_neg hge]
          simp
      | retry s2 q3 =>
        dsimp only
        obtain ⟨_, _, hge, _, _⟩ := loopBody_retry_inv h2
        unfold afterLoop
        rw [if_pos hge]
        cases h20 : enc 20 <;> simp

/-- Whether optimizeWebP returned a size (rather than throwing). -/
def optReturns (env : FileEnv) : Bool :=
  match (optimizeWebP env.enc env.statSize env.isWebP).result with
  | .ok _ => true
  | .error _ => false

/-- Exhaustive case analysis of one iteration of the per-file loop: the
catch path, the two skip paths and the two convert paths (each split on
whether the temp-file unlink at line 199 succeeds). -/
theorem processFile_cases (sessionId : String) (f : SourceFile) (env : FileEnv) :
    (∃ msg, (optimizeWebP env.enc env.statSize env.isWebP).result = .error msg ∧
      processFile sessionId f env
        = ⟨[failedEntry f msg], [""],
            (optimizeWebP env.enc env.statSize env.isWebP).outputExists, 1⟩) ∨
    (∃ s, (optimizeWebP env.enc env.statSize env.isWebP).result = .ok s ∧
      s ≥ env.statSize ∧ env.unlinkTempError = none ∧
      processFile sessionId f env
        = ⟨[⟨f.originalName, env.statSize, env.statSize, true, false, none⟩], [""], false, 1⟩) ∨
    (∃ s m, (optimizeWebP env.enc env.statSize env.isWebP).result = .ok s ∧
      s ≥ env.statSize ∧ env.unlinkTempError = some m ∧
      processFile sessionId f env
        = ⟨[⟨f.originalName, env.statSize, env.statSize, true, false, none⟩, failedEntry f m],
            ["", ""], false, 2⟩) ∨
    (∃ s, (optimizeWebP env.enc env.statSize env.isWebP).result = .ok s ∧
      ¬ s ≥ env.statSize ∧ env.unlinkTempError = none ∧
      processFile sessionId f env
        = ⟨[⟨f.originalName, env.statSize, s, false, false, none⟩],
            ["/download/" ++ sessionId ++ "/" ++ (f.baseName ++ ".webp")], true, 1⟩) ∨
    (∃ s m, (optimizeWebP env.enc env.statSize env.isWebP).result = .ok s ∧
      ¬ s ≥ env.statSize ∧ env.unlinkTempError = some m ∧
      processFile sessionId f env
        = ⟨[⟨f.originalName, env.statSize, s, false, false, none⟩, failedEntry f m],
            ["/download/" ++ sessionId ++ "/" ++ (f.baseName ++ ".webp"), ""], true, 2⟩) := by
  unfold processFile
  cases h : (optimizeWebP env.enc env.statSize env.isWebP).result with
  | error msg => exact Or.inl ⟨msg, rfl, rfl⟩
  | ok s =>
    by_cases hs : s ≥ env.statSize
    · cases hu : env.unlinkTempError with
      | none =>
        refine Or.inr (Or.inl ⟨s, rfl, hs, rfl, ?_⟩)
        dsimp only
        rw [if_pos hs]
      | some m =>
        refine Or.inr (Or.inr (Or.inl ⟨s, m, rfl, hs, rfl, ?_⟩))
        dsimp only
        rw [if_pos hs]
    · cases hu : env.unlinkTempError with
      | none =>
        refine Or.inr (Or.inr (Or.inr (Or.inl ⟨s, rfl, hs, rfl, ?_⟩)))
        dsimp only
        rw [if_neg hs]
      | some m =>
        refine Or.inr (Or.inr (Or.inr (Or.inr ⟨s, m, rfl, hs, rfl, ?_⟩)))
        dsimp only
        rw [if_neg hs]

/-! ### Claim C1 -/

/-- Concrete input for the C1 counterexample: the first encode yields 300
bytes, below both the original size 1000 and the minimum 512, so line 136
throws the too-small error after the output file was written. -/
def fC1 : SourceFile := ⟨"pic.jpg", "pic", 1234⟩

/-- Environment for the C1 counterexample. -/
def envC1 : FileEnv := ⟨1000, false, fun _ => .ok 300, none⟩

/-- Counterexample to claim C1 as stated: this file's processing ends with
a Failed outcome (error true, errorDetail populated), yet the output file
written by the failing encode remains in the session directory — neither
the too-small throw at line 136 nor the catch block at lines 200 to 211
unlinks outputPath. -/
theorem failed_outcome_output_retained :
    (processFile "s1" fC1 envC1).entries
      = [⟨"pic.jpg", 1234, 1234, false, true, some "Converted file size too small"⟩] ∧
    (processFile "s1" fC1 envC1).outputExists = true := ⟨rfl, rfl⟩

/-- Claim C1, amended: every Failed outcome has errorDetail populated; the
absence of the output file is not guaranteed (see the counterexample). -/
theorem failed_outcome_errorDetail_populated (sessionId : String) (f : SourceFile)
    (env : FileEnv) (e : FileSizeEntry) (he : e ∈ (processFile sessionId f env).entries)
    (herr : e.error = true) : e.errorDetail.isSome = true := by
  rcases processFile_cases sessionId f env with
      ⟨msg, _, hpf⟩ | ⟨s, _, _, _, hpf⟩ | ⟨s, m, _, _, _, hpf⟩ |
      ⟨s, _, _, _, hpf⟩ | ⟨s, m, _, _, _, hpf⟩ <;>
    rw [hpf] at he <;>
    simp only [failedEntry, List.mem_cons, List.mem_singleton, List.not_mem_nil,
      or_false] at he
  · subst he; rfl
  · subst he; simp at herr
  · rcases he with rfl | rfl
    · simp at herr
    · rfl
  · subst he; simp at herr
  · rcases he with rfl | rfl
    · simp at herr
    · rfl

/-- Concrete input for the C1 witness: the encoder throws, the catch block
records a Failed entry carrying the message. -/
def fC1w : SourceFile := ⟨"w.jpg", "w", 10⟩

/-- Environment for the C1 witness. -/
def envC1w : FileEnv := ⟨1000, false, fun _ => .error "encode fault", none⟩

/-- Witness for failed_outcome_errorDetail_populated at a concrete input. -/
theorem failed_outcome_errorDetail_populated_witness :
    (failedEntry fC1w "encode fault").errorDetail.isSome = true :=
  failed_outcome_errorDetail_populated "sw1" fC1w envC1w (failedEntry fC1w "encode fault")
    (by decide) rfl

/-! ### Claim C2 -/

/-- Claim C2, amended: when optimizeWebP throws, the outcome is a single
Failed entry carrying the thrown message with an empty download URL; and
the too-small error is thrown when an encode of the search loop yields a
size below 512 that is also below the original size (so the retry branch of
line 130 does not fire).  The claim's clause "regardless of how the
resulting size compares to the original size" is refuted by the
counterexample: the check is skipped when the retry branch fires and for
the fallback encode. -/
theorem too_small_output_failure (sessionId : String) (f : SourceFile) (env : FileEnv) :
    (∀ msg, (optimizeWebP env.enc env.statSize env.isWebP).result = .error msg →
      (processFile sessionId f env).entries = [failedEntry f msg] ∧
      (processFile sessionId f env).urls = [""]) ∧
    (∀ size : Nat, env.enc (initialQuality env.isWebP) = .ok size → size < 512 →
      size < env.statSize →
      (optimizeWebP env.enc env.statSize env.isWebP).result
        = .error "Converted file size too small") := by
  constructor
  · intro msg h
    unfold processFile
    rw [h]
    exact ⟨rfl, rfl⟩
  · intro size henc h512 hlt
    have hnc : ¬(size ≥ env.statSize ∧ initialQuality env.isWebP > 10 ∧ 0 < maxAttempts) :=
      fun hc => absurd hc.1 (by omega)
    have hl : loopBody env.enc env.statSize (initialQuality env.isWebP) 0
        = .thrown true "Converted file size too small" := by
      unfold loopBody
      rw [henc]
      dsimp only
      rw [if_neg hnc, if_pos h512]
    unfold optimizeWebP
    rw [hl]

/-- The encoder for the C2 counterexample: every search-loop encode yields
20000 bytes (not below the original 10000), the fallback encode at quality
20 yields 300 bytes. -/
def encC2 : EncodeFn := fun q => if q = 20 then .ok 300 else .ok 20000

/-- Concrete file for the C2 counterexample. -/
def fC2 : SourceFile := ⟨"a.png", "a", 10000⟩

/-- Environment for the C2 counterexample. -/
def envC2 : FileEnv := ⟨10000, false, encC2, none⟩

/-- Counterexample to claim C2 as stated: the fallback encode (a transcode
attempt) yields 300 bytes, below the minimum viable 512, yet the transcoder
does not fail: 300 is returned, the outcome is Converted (not Failed) and
the download path is non-empty. -/
theorem small_output_not_always_failed :
    (optimizeWebP encC2 10000 false).encodes = [70, 50, 30, 20] ∧
    (optimizeWebP encC2 10000 false).result = .ok 300 ∧
    300 < 512 ∧
    (processFile "s2" fC2 envC2).entries
      = [⟨"a.png", 10000, 300, false, false, none⟩] ∧
    (processFile "s2" fC2 envC2).urls = ["/download/s2/a.webp"] :=
  ⟨rfl, rfl, by decide, rfl, rfl⟩

/-- Environment for the C2 witness: the single encode yields 300 bytes,
below 512 and below the original 1000, so the too-small error is thrown
and the outcome is Failed with empty download URL. -/
def envC2w : FileEnv := ⟨1000, false, fun _ => .ok 300, none⟩

/-- Concrete file for the C2 witness. -/
def fC2w : SourceFile := ⟨"t.png", "t", 900⟩

/-- Witness for too_small_output_failure at a concrete input. -/
theorem too_small_output_failure_witness :
    (optimizeWebP envC2w.enc envC2w.statSize envC2w.isWebP).result
      = .error "Converted file size too small" ∧
    (processFile "s2w" fC2w envC2w).entries
      = [failedEntry fC2w "Converted file size too small"] ∧
    (processFile "s2w" fC2w envC2w).urls = [""] := by
  have h := too_small_output_failure "s2w" fC2w envC2w
  have hthrow := h.2 300 rfl (by decide) (by decide)
  exact ⟨hthrow, (h.1 "Converted file size too small" hthrow).1,
    (h.1 "Converted file size too small" hthrow).2⟩

/-! ### Claim C3 -/

/-- Claim C3: the first encode runs at quality 50 when the source is
already WebP and 70 otherwise; every further encode of the search loop runs
20 below the previous one, so the trace of qualities is a prefix of
q0, q0-20, q0-40 possibly followed by the fallback encode at fixed quality
20 — at most 4 encodes per file.  When the three search attempts are
exhausted with every measured size at least the original size (the retry
branch fired three times), the fallback encode at quality 20 runs and
whatever size it yields is returned to the caller. -/
theorem quality_search_steps (enc : EncodeFn) (originalSize : Nat) (isWebP : Bool) :
    ((optimizeWebP enc originalSize isWebP).encodes.head?
        = some (initialQuality isWebP)) ∧
    ((optimizeWebP enc originalSize isWebP).encodes = [initialQuality isWebP] ∨
      (optimizeWebP enc originalSize isWebP).encodes
        = [initialQuality isWebP, initialQuality isWebP - 20] ∨
      (optimizeWebP enc originalSize isWebP).encodes
        = [initialQuality isWebP, initialQuality isWebP - 20,
            initialQuality isWebP - 40] ∨
      (optimizeWebP enc originalSize isWebP).encodes
        = [initialQuality isWebP, initialQuality isWebP - 20,
            initialQuality isWebP - 40, 20]) ∧
    ((optimizeWebP enc originalSize isWebP).encodes.length ≤ 4) ∧
    (∀ s0 s1 s2 : Nat,
      enc (initialQuality isWebP) = .ok s0 → s0 ≥ originalSize →
      enc (initialQuality isWebP - 20) = .ok s1 → s1 ≥ originalSize →
      enc (initialQuality isWebP - 40) = .ok s2 → s2 ≥ originalSize →
      10 < initialQuality isWebP - 40 →
      (optimizeWebP enc originalSize isWebP).encodes
        = [initialQuality isWebP, initialQuality isWebP - 20,
            initialQuality isWebP - 40, 20] ∧
      ∀ s3 : Nat, enc 20 = .ok s3 →
        (optimizeWebP enc originalSize isWebP).result = .ok s3) := by
  refine ⟨?_, optimizeWebP_encodes_shape enc originalSize isWebP, ?_, ?_⟩
  · rcases optimizeWebP_encodes_shape enc originalSize isWebP with h | h | h | h <;>
      rw [h] <;> rfl
  · rcases optimizeWebP_encodes_shape enc originalSize isWebP with h | h | h | h <;>
      rw [h] <;> simp
  · intro s0 s1 s2 h0 hge0 h1 hge1 h2 hge2 hq40
    have hq0 : (10 : Int) < initialQuality isWebP := by omega
    have hq20 : (10 : Int) < initialQuality isWebP - 20 := by omega
    have e40 : initialQuality isWebP - 20 - 20 = initialQuality isWebP - 40 := by ring
    have h2e : enc (initialQuality isWebP - 20 - 20) = .ok s2 := by rw [e40]; exact h2
    have hq40e : (10 : Int) < initialQuality isWebP - 20 - 20 := by omega
    have r0 := loopBody_eq_retry enc originalSize (initialQuality isWebP) 0 s0
      h0 hge0 hq0 (by decide)
    have r1 := loopBody_eq_retry enc originalSize (initialQuality isWebP - 20) 1 s1
      h1 hge1 hq20 (by decide)
    have r2 := loopBody_eq_retry enc originalSize (initialQuality isWebP - 20 - 20) 2 s2
      h2e hge2 hq40e (by decide)
    unfold optimizeWebP
    rw [r0]
    dsimp only
    rw [r1]
    dsimp only
    rw [r2]
    dsimp only
    rw [e40]
    unfold afterLoop
    rw [if_pos hge2]
    cases h20 : enc 20 with
    | error m =>
      refine ⟨by simp, ?_⟩
      intro s3 h3
      simp at h3
    | ok sX =>
      refine ⟨by simp, ?_⟩
      intro s3 h3
      injection h3 with hx
      rw [hx]

/-- The encoder for the C3 witness: search-loop encodes yield 20000 bytes,
the fallback at quality 20 yields 300. -/
def encC3 : EncodeFn := fun q => if q = 20 then .ok 300 else .ok 20000

/-- Witness for quality_search_steps at a concrete input: a non-WebP file
of 10000 bytes whose three search encodes never go below the original, so
all four encodes run (qualities 70, 50, 30, then the fallback 20) and the
fallback size 300 is returned. -/
theorem quality_search_steps_witness :
    (optimizeWebP encC3 10000 false).encodes = [70, 50, 30, 20] ∧
    (optimizeWebP encC3 10000 false).result = .ok 300 := by
  have h := (quality_search_steps encC3 10000 false).2.2.2 20000 20000 20000
    rfl (by decide) rfl (by decide) rfl (by decide) (by decide)
  exact ⟨h.1, h.2 300 rfl⟩

/-! ### Claim C4 -/

/-- Claim C4: when optimizeWebP returns a size and the temp-file cleanup
succeeds, the outcome is decided by line 189: a returned size at least the
measured original size gives a Skipped outcome (convertedSize equal to the
original, empty download URL, output deleted); a smaller returned size
gives a Converted outcome with the real size and the non-empty download
path /download/sessionId/baseName.webp, output kept. -/
theorem skip_or_convert_decision (sessionId : String) (f : SourceFile) (env : FileEnv)
    (size : Nat)
    (hok : (optimizeWebP env.enc env.statSize env.isWebP).result = .ok size)
    (hclean : env.unlinkTempError = none) :
    (size ≥ env.statSize →
      (processFile sessionId f env).entries
        = [⟨f.originalName, env.statSize, env.statSize, true, false, none⟩] ∧
      (processFile sessionId f env).urls = [""] ∧
      (processFile sessionId f env).outputExists = false) ∧
    (size < env.statSize →
      (processFile sessionId f env).entries
        = [⟨f.originalName, env.statSize, size, false, false, none⟩] ∧
      (processFile sessionId f env).urls
        = ["/download/" ++ sessionId ++ "/" ++ (f.baseName ++ ".webp")] ∧
      ("/download/" ++ sessionId ++ "/" ++ (f.baseName ++ ".webp")) ≠ "" ∧
      (processFile sessionId f env).outputExists = true) := by
  constructor
  · intro hge
    unfold processFile
    rw [hok]
    dsimp only
    rw [if_pos hge, hclean]
    exact ⟨rfl, rfl, rfl⟩
  · intro hlt
    unfold processFile
    rw [hok]
    dsimp only
    rw [if_neg (by omega), hclean]
    refine ⟨rfl, rfl, ?_, rfl⟩
    intro hcon
    have hlen := congrArg String.length hcon
    simp only [String.length_append] at hlen
    have d1 : ("/download/" : String).length = 10 := rfl
    have d2 : ("/" : String).length = 1 := rfl
    have d3 : (".webp" : String).length = 5 := rfl
    have d4 : ("" : String).length = 0 := rfl
    rw [d1, d2, d3, d4] at hlen
    omega

/-- Concrete file for the C4 witness. -/
def fC4 : SourceFile := ⟨"b.png", "b", 500⟩

/-- Environment for the C4 witness: every encode yields 600 bytes against a
measured original of 100 bytes, so the returned size 600 is not smaller and
the file is skipped. -/
def envC4 : FileEnv := ⟨100, false, fun _ => .ok 600, none⟩

/-- Witness for skip_or_convert_decision at a concrete input. -/
theorem skip_or_convert_decision_witness :
    (processFile "s4" fC4 envC4).entries = [⟨"b.png", 100, 100, true, false, none⟩] ∧
    (processFile "s4" fC4 envC4).urls = [""] ∧
    (processFile "s4" fC4 envC4).outputExists = false :=
  (skip_or_convert_decision "s4" fC4 envC4 600 rfl rfl).1 (by decide)

/-! ### Claim C9 -/

/-- Concrete file for the C9 counterexample. -/
def fC9 : SourceFile := ⟨"c.png", "c", 777⟩

/-- Environment for the C9 counterexample: the conversion succeeds (600 of
1000 bytes) but the temp-file unlink at line 199 rejects with EPERM. -/
def envC9 : FileEnv := ⟨1000, false, fun _ => .ok 600, some "EPERM"⟩

/-- Counterexample to claim C9 as stated: when the cleanup at line 199
fails after a successful conversion, the failure is not merely logged — it
is caught by the per-file handler, recorded as an additional Failed outcome
in the batch result, and a second unlink call is made on the same
temporary upload. -/
theorem cleanup_failure_propagates :
    (processFile "s9" fC9 envC9).tempUnlinkCalls = 2 ∧
    (processFile "s9" fC9 envC9).entries.map FileSizeEntry.error = [false, true] ∧
    (processFile "s9" fC9 envC9).entries.map FileSizeEntry.errorDetail
      = [none, some "EPERM"] := ⟨rfl, rfl, rfl⟩

/-- Claim C9, amended: deletion of the temporary upload artifact is
attempted on every exit path; exactly one unlink call is made — except when
optimizeWebP returned a size and that single cleanup call fails, in which
case the failure propagates to the catch block and a second call is made
(whose own failure is only logged). -/
theorem temp_cleanup_attempts (sessionId : String) (f : SourceFile) (env : FileEnv) :
    (processFile sessionId f env).tempUnlinkCalls
      = if optReturns env = true ∧ env.unlinkTempError.isSome = true then 2 else 1 := by
  unfold processFile optReturns
  cases h : (optimizeWebP env.enc env.statSize env.isWebP).result with
  | error msg => simp
  | ok s =>
    cases hu : env.unlinkTempError with
    | none => by_cases hs : s ≥ env.statSize <;> simp [hs]
    | some m => by_cases hs : s ≥ env.statSize <;> simp [hs]

/-! ### Claim C10 -/

/-- Claim C10: every Failed entry records originalSize and convertedSize
both equal to the declared upload size file.size (not a size measured from
disk), carries error true, and the download URL at the same position is the
empty string. -/
theorem failed_outcome_sizes_declared (sessionId : String) (f : SourceFile)
    (env : FileEnv) :
    (∀ e ∈ (processFile sessionId f env).entries, e.error = true →
      e.originalSize = f.declaredSize ∧ e.convertedSize = f.declaredSize) ∧
    (∀ i : Nat,
      ((processFile sessionId f env).entries.get? i).map FileSizeEntry.error
        = some true →
      (processFile sessionId f env).urls.get? i = some "") := by
  rcases processFile_cases sessionId f env with
      ⟨msg, _, hpf⟩ | ⟨s, _, _, _, hpf⟩ | ⟨s, m, _, _, _, hpf⟩ |
      ⟨s, _, _, _, hpf⟩ | ⟨s, m, _, _, _, hpf⟩ <;>
    rw [hpf] <;> constructor
  · intro e he herr
    simp only [failedEntry, List.mem_singleton] at he
    subst he
    exact ⟨rfl, rfl⟩
  · intro i hi
    match i with
    | 0 => rfl
    | n + 1 => simp at hi
  · intro e he herr
    simp only [List.mem_singleton] at he
    subst he
    simp at herr
  · intro i hi
    match i with
    | 0 => simp [FileSizeEntry.error] at hi
    | n + 1 => simp at hi
  · intro e he herr
    simp only [failedEntry, List.mem_cons, List.mem_singleton, List.not_mem_nil,
      or_false] at he
    rcases he with rfl | rfl
    · simp at herr
    · exact ⟨rfl, rfl⟩
  · intro i hi
    match i with
    | 0 => simp [FileSizeEntry.error] at hi
    | 1 => rfl
    | n + 2 => simp at hi
  · intro e he herr
    simp only [List.mem_singleton] at he
    subst he
    simp at herr
  · intro i hi
    match i with
    | 0 => simp [FileSizeEntry.error] at hi
    | n + 1 => simp at hi
  · intro e he herr
    simp only [failedEntry, List.mem_cons, List.mem_singleton, List.not_mem_nil,
      or_false] at he
    rcases he with rfl | rfl
    · simp at herr
    · exact ⟨rfl, rfl⟩
  · intro i hi
    match i with
    | 0 => simp [FileSizeEntry.error] at hi
    | 1 => rfl
    | n + 2 => simp at hi

/-- Concrete file for the C10 witness. -/
def fC10 : SourceFile := ⟨"d.gif", "d", 4321⟩

/-- Environment for the C10 witness: the encoder throws, so the catch path
records the declared size 4321 in both size fields. -/
def envC10 : FileEnv := ⟨999, false, fun _ => .error "boom", none⟩

/-- Witness for failed_outcome_sizes_declared at a concrete input. -/
theorem failed_outcome_sizes_declared_witness :
    ((failedEntry fC10 "boom").originalSize = 4321 ∧
      (failedEntry fC10 "boom").convertedSize = 4321) ∧
    (processFile "s10" fC10 envC10).urls.get? 0 = some "" := by
  have h := failed_outcome_sizes_declared "s10" fC10 envC10
  exact ⟨h.1 (failedEntry fC10 "boom") (by decide) rfl, h.2 0 (by decide)⟩

/-! ### Claim C7 -/

/-- When the temp-file cleanup at line 199 succeeds, one file contributes
exactly one entry and one URL, and the entry carries the file's original
name. -/
theorem processFile_clean_shape (sessionId : String) (f : SourceFile) (env : FileEnv)
    (h : env.unlinkTempError = none) :
    ∃ e u, (processFile sessionId f env).entries = [e] ∧
      (processFile sessionId f env).urls = [u] ∧
      e.originalName = f.originalName := by
  rcases processFile_cases sessionId f env with
      ⟨msg, _, hpf⟩ | ⟨s, _, _, _, hpf⟩ | ⟨s, m, _, _, hu, hpf⟩ |
      ⟨s, _, _, _, hpf⟩ | ⟨s, m, _, _, hu, hpf⟩
  · exact ⟨failedEntry f msg, "", by rw [hpf], by rw [hpf], rfl⟩
  · exact ⟨⟨f.originalName, env.statSize, env.statSize, true, false, none⟩, "",
      by rw [hpf], by rw [hpf], rfl⟩
  · rw [h] at hu; simp at hu
  · exact ⟨⟨f.originalName, env.statSize, s, false, false, none⟩,
      "/download/" ++ sessionId ++ "/" ++ (f.baseName ++ ".webp"),
      by rw [hpf], by rw [hpf], rfl⟩
  · rw [h] at hu; simp at hu

/-- When optimizeWebP throws, the per-file result is a single failed entry
carrying the thrown message, with an empty URL. -/
theorem processFile_error_entries (sessionId : String) (f : SourceFile) (env : FileEnv)
    (msg : String)
    (h : (optimizeWebP env.enc env.statSize env.isWebP).result = .error msg) :
    (processFile sessionId f env).entries = [failedEntry f msg] ∧
    (processFile sessionId f env).urls = [""] := by
  unfold processFile
  rw [h]
  exact ⟨rfl, rfl⟩

/-- Concrete file for the C7 counterexample. -/
def fC7 : SourceFile := ⟨"f.png", "f", 888⟩

/-- Environment for the C7 counterexample: the conversion succeeds but the
temp-file unlink at line 199 rejects. -/
def envC7 : FileEnv := ⟨1000, false, fun _ => .ok 600, some "EBUSY"⟩

/-- Counterexample to claim C7 as stated: a batch of one file can produce
two outcomes for that file — the cleanup failure after a successful
conversion is caught by the per-file handler and recorded as a second,
Failed entry — so the batch result does not contain exactly one outcome per
source file. -/
theorem cleanup_failure_duplicate_outcome :
    (processBatch "s7" [(fC7, envC7)]).1.length = 2 ∧
    [(fC7, envC7)].length = 1 ∧
    (processBatch "s7" [(fC7, envC7)]).1.map FileSizeEntry.error = [false, true] :=
  ⟨rfl, rfl, rfl⟩

/-- Claim C7, amended: provided the temp-file cleanup at line 199 succeeds
for every file, the batch result has exactly one outcome per source file in
input order (same names, same length of the URL array); and any error
thrown while processing a file is caught locally and recorded as that
file's Failed outcome carrying the error's message while the remaining
files are still processed — one file's failure never aborts the batch. -/
theorem batch_error_isolation (sessionId : String) (files : List (SourceFile × FileEnv))
    (hclean : ∀ fe ∈ files, fe.2.unlinkTempError = none) :
    ((processBatch sessionId files).1.map FileSizeEntry.originalName
        = files.map fun fe => fe.1.originalName) ∧
    (processBatch sessionId files).2.length = files.length ∧
    (∀ fe ∈ files, ∀ msg,
      (optimizeWebP fe.2.enc fe.2.statSize fe.2.isWebP).result = .error msg →
      failedEntry fe.1 msg ∈ (processBatch sessionId files).1) := by
  induction files with
  | nil =>
    refine ⟨rfl, rfl, ?_⟩
    intro fe hfe
    simp at hfe
  | cons head tail ih =>
    obtain ⟨e, u, he, hu, hname⟩ := processFile_clean_shape sessionId head.1 head.2
      (hclean head (List.mem_cons_self _ _))
    have iht := ih fun fe hfe => hclean fe (List.mem_cons_of_mem _ hfe)
    refine ⟨?_, ?_, ?_⟩
    · simp only [processBatch]
      rw [he, List.map_append, iht.1]
      simp [hname]
    · simp only [processBatch]
      rw [hu]
      simp [iht.2.1]
    · intro fe hfe msg hmsg
      simp only [processBatch]
      rcases List.mem_cons.mp hfe with heq | htail
      · subst heq
        have herr := processFile_error_entries sessionId fe.1 fe.2 msg hmsg
        rw [herr.1]
        exact List.mem_append_left _ (List.mem_singleton_self _)
      · exact List.mem_append_right _ (iht.2.2 fe htail msg hmsg)

/-- First concrete file for the C7 witness (its encoder throws). -/
def fC7a : SourceFile := ⟨"g.png", "g", 11⟩

/-- Environment of the first C7 witness file: the encoder always throws. -/
def envC7a : FileEnv := ⟨100, false, fun _ => .error "encode fault", none⟩

/-- Second concrete file for the C7 witness (it converts fine). -/
def fC7b : SourceFile := ⟨"h.png", "h", 22⟩

/-- Environment of the second C7 witness file. -/
def envC7b : FileEnv := ⟨1000, false, fun _ => .ok 600, none⟩

/-- Witness for batch_error_isolation at a concrete two-file batch whose
first file fails: both files get an outcome, in order, and the first
file's Failed entry carries the thrown message. -/
theorem batch_error_isolation_witness :
    (processBatch "s7w" [(fC7a, envC7a), (fC7b, envC7b)]).1.map
        FileSizeEntry.originalName = ["g.png", "h.png"] ∧
    (processBatch "s7w" [(fC7a, envC7a), (fC7b, envC7b)]).2.length = 2 ∧
    failedEntry fC7a "encode fault"
      ∈ (processBatch "s7w" [(fC7a, envC7a), (fC7b, envC7b)]).1 := by
  have h := batch_error_isolation "s7w" [(fC7a, envC7a), (fC7b, envC7b)]
    (by
      intro fe hfe
      simp only [List.mem_cons, List.mem_singleton, List.not_mem_nil, or_false] at hfe
      rcases hfe with rfl | rfl <;> rfl)
  exact ⟨h.1, h.2.1,
    h.2.2 (fC7a, envC7a) (List.mem_cons_self _ _) "encode fault" rfl⟩

/-! ### Claim C8 -/

/-- Claim C8: the zip URL of the batch response equals
/download-zip/sessionId exactly when at least one entry is Converted
(neither error nor skipped), and is the empty string otherwise. -/
theorem zipDownloadUrl_iff_converted (sessionId : String)
    (fileSizes : List FileSizeEntry) :
    zipDownloadUrl sessionId fileSizes
      = if fileSizes.any (fun e => !e.error && !e.skipped) = true then
          "/download-zip/" ++ sessionId
        else "" := by
  unfold zipDownloadUrl
  by_cases h : fileSizes.any (fun e => !e.error && !e.skipped) = true
  · obtain ⟨e, he, hp⟩ := List.any_eq_true.mp h
    have hcond : fileSizes.length ≠ 0 ∧
        ¬ fileSizes.all (fun f => f.error || f.skipped) = true := by
      constructor
      · intro h0
        rw [List.length_eq_zero] at h0
        subst h0
        simp at he
      · intro hall
        have he2 := List.all_eq_true.mp hall e he
        revert hp he2
        cases hb : e.error <;> cases hc : e.skipped <;> decide
    rw [if_pos hcond, if_pos h]
  · have hcond : ¬(fileSizes.length ≠ 0 ∧
        ¬ fileSizes.all (fun f => f.error || f.skipped) = true) := by
      rintro ⟨hl, hall⟩
      apply hall
      rw [List.all_eq_true]
      intro x hx
      by_contra hx2
      apply h
      rw [List.any_eq_true]
      refine ⟨x, hx, ?_⟩
      revert hx2
      cases hb : x.error <;> cases hc : x.skipped <;> decide
    rw [if_neg hcond, if_neg h]

/-! ### Claim C5 -/

/-- Environment for the C5 counterexample: the session directory is absent,
so the readdir at line 68 rejects. -/
def envC5 : ZipEnv := ⟨.error "ENOENT: no such file or directory", .ok (), none⟩

/-- Counterexample to claim C5 as stated: when the session directory is
absent, the readdir rejection is caught by the outer catch (line 101) and
answered with a 500 server error, not a 404 NotFound. -/
theorem absent_session_dir_not_404 :
    (downloadZip envC5).response
      = .serverError "Failed to create ZIP: ENOENT: no such file or directory" ∧
    ∀ msg, (downloadZip envC5).response ≠ .notFound msg := by
  refine ⟨rfl, ?_⟩
  intro msg h
  exact ZipResponse.noConfusion h

/-- Claim C5, amended: a request whose session directory exists but is
empty is answered with 404 NoFilesAvailable; a request whose session
directory is absent makes readdir reject and is answered with a 500 error
instead. -/
theorem zip_empty_or_absent_response (env : ZipEnv) :
    (env.readdir = .ok [] →
      (downloadZip env).response = .notFound "No files available to zip") ∧
    (∀ msg, env.readdir = .error msg →
      (downloadZip env).response = .serverError ("Failed to create ZIP: " ++ msg)) := by
  constructor
  · intro h
    unfold downloadZip
    rw [h]
    rfl
  · intro msg h
    unfold downloadZip
    rw [h]

/-- Environment for the C5 witness: an existing, empty session directory. -/
def envC5w : ZipEnv := ⟨.ok [], .ok (), none⟩

/-- Witness for zip_empty_or_absent_response at a concrete input. -/
theorem zip_empty_or_absent_response_witness :
    (downloadZip envC5w).response = .notFound "No files available to zip" :=
  (zip_empty_or_absent_response envC5w).1 rfl

/-! ### Claim C6 -/

/-- Environment for the C6 counterexample: the archiver emits an error
after the write stream has created the transient zip file. -/
def envC6 : ZipEnv := ⟨.ok ["x.webp"], .error "unexpected end of stream", none⟩

/-- Counterexample to claim C6 as stated: when compression fails, the
transient zip file has been created but the outer catch does not delete it
— the unconditional cleanup only runs in the delivery callback. -/
theorem archive_error_zip_not_deleted :
    (downloadZip envC6).zipFileCreated = true ∧
    (downloadZip envC6).zipFileDeleted = false ∧
    (downloadZip envC6).response
      = .serverError "Failed to create ZIP: unexpected end of stream" :=
  ⟨rfl, rfl, rfl⟩

/-- Claim C6, amended: when the archive is built successfully, the
transient zip file is deleted in the delivery callback on both successful
and failed delivery; when compression fails, the already-created transient
file is not deleted. -/
theorem zip_cleanup_after_delivery (env : ZipEnv) (files : List String)
    (h1 : env.readdir = .ok files) (h2 : ¬ files.length = 0)
    (h3 : env.archiveResult = .ok ()) :
    (downloadZip env).zipFileCreated = true ∧
    (downloadZip env).zipFileDeleted = true := by
  unfold downloadZip
  rw [h1]
  dsimp only
  rw [if_neg h2, h3]
  cases hd : env.deliveryError with
  | none => exact ⟨rfl, rfl⟩
  | some m => exact ⟨rfl, rfl⟩

/-- Environment for the C6 witness: delivery fails, the cleanup still
runs. -/
def envC6w : ZipEnv := ⟨.ok ["x.webp"], .ok (), some "broken pipe"⟩

/-- Witness for zip_cleanup_after_delivery at a concrete input with failed
delivery. -/
theorem zip_cleanup_after_delivery_witness :
    (downloadZip envC6w).zipFileCreated = true ∧
    (downloadZip envC6w).zipFileDeleted = true :=
  zip_cleanup_after_delivery envC6w ["x.webp"] rfl (by decide) rfl

end WebpConverter
